import Mathlib

/-!
Verification of the HarborGuard scan scheduling and lifecycle core.

The development shallowly embeds the orchestration code of
`ScannerService` and `BulkScanService` (the job registry / state machine
and the bulk batch orchestrator) and, where the repository snapshot lacks
the `ScanQueue` implementation (only its call sites appear), a model of
the bounded priority queue taken from the specification (§4.1).
External collaborators (the execution dispatcher, result loading, the
notification service, persistence) are modelled as outcome parameters, as
the specification's §6 treats them as out-of-scope contracts.
-/

namespace HarborGuard

/-- Scan lifecycle status, as in the `ScanStatus` union used by
`ScannerService`. -/
inductive ScanStatus where
  | PENDING
  | RUNNING
  | SUCCESS
  | FAILED
  | CANCELLED
deriving DecidableEq, Repr

/-- A status is terminal when no further transition is supposed to leave it
(spec glossary: SUCCESS, FAILED, CANCELLED). -/
def ScanStatus.isTerminal : ScanStatus → Bool
  | .SUCCESS => true
  | .FAILED => true
  | .CANCELLED => true
  | _ => false

/-- The scan request payload, restricted to the fields the scanner core
reads (`image`, `tag`, `source`, `tarPath`). -/
structure ScanRequest where
  image : String
  tag : String
  source : String
  tarPath : Option String := none
deriving DecidableEq, Repr

/-- A queue entry: the `QueuedScan` data of spec §3 (requestId, scanId,
imageId, request payload, priority, enqueuedAt). -/
structure QueuedScan where
  requestId : String
  scanId : String
  imageId : String
  request : ScanRequest
  priority : Int
  enqueuedAt : Nat
deriving DecidableEq, Repr

/-- Modelled from the spec: the Bounded Priority Queue state (§4.1).  The
`ScanQueue` implementation is not part of the source snapshot — only its
call sites in `ScannerService` are — so its observable state is taken from
§4.1: pending entries, the identifiers of running jobs, the concurrency
limit, a logical clock stamping arrivals, and the log of fired
"scan-started" signals. -/
structure QueueState where
  pending : List QueuedScan
  running : List String
  limit : Nat
  clock : Nat
  startedLog : List String
deriving DecidableEq, Repr

/-- Modelled from the spec: the literal §4.1/§3 waiting order — `(priority
asc, enqueuedAt asc)` with "lower sorts first": `a` starts before `b` when
its priority value is smaller, ties broken by arrival time. -/
def specBefore (a b : QueuedScan) : Bool :=
  a.priority < b.priority || (a.priority == b.priority && a.enqueuedAt < b.enqueuedAt)

/-- Modelled from the spec: the waiting order realising §8's priority
scenario and the bulk-priority intent of the orchestrator ("Use lower
priority for bulk scans (0 = normal, -1 = bulk)"): a HIGHER priority value
starts first, ties broken by arrival time. -/
def runBefore (a b : QueuedScan) : Bool :=
  b.priority < a.priority || (a.priority == b.priority && a.enqueuedAt < b.enqueuedAt)

/-- Leftmost minimal pending entry with respect to the order `before`,
together with the remaining entries. -/
def pickBest (before : QueuedScan → QueuedScan → Bool) :
    List QueuedScan → Option (QueuedScan × List QueuedScan)
  | [] => none
  | q :: qs =>
    match pickBest before qs with
    | none => some (q, [])
    | some (b, rest) => if before b q then some (b, q :: rest) else some (q, qs)

/-- Modelled from the spec: `enqueue(job, priority)` (§4.1) — stamp the
arrival clock; if a slot is free the job starts immediately and the
"started" signal fires, otherwise it waits. -/
def enqueueQ (qs : QueuedScan) (q : QueueState) : QueueState :=
  let entry := { qs with enqueuedAt := q.clock }
  if q.running.length < q.limit then
    { q with running := q.running ++ [entry.requestId],
             clock := q.clock + 1,
             startedLog := q.startedLog ++ [entry.requestId] }
  else
    { q with pending := q.pending ++ [entry], clock := q.clock + 1 }

/-- Modelled from the spec: `completeScan(requestId)` (§4.1) — releases a
running slot; if pending jobs exist, promotes the next eligible one and
fires "started".  A request that holds no running slot releases nothing
(§5: a late completion signal must be ignored, not reprocessed). -/
def completeScanQ (before : QueuedScan → QueuedScan → Bool) (rid : String)
    (q : QueueState) : QueueState :=
  if q.running.contains rid then
    let q1 := { q with running := q.running.filter (fun r => r ≠ rid) }
    match pickBest before q1.pending with
    | some (best, rest) =>
      { q1 with pending := rest,
                running := q1.running ++ [best.requestId],
                startedLog := q1.startedLog ++ [best.requestId] }
    | none => q1
  else q

/-- Modelled from the spec: `cancelQueuedScan(requestId)` (§4.1) — removes
a not-yet-started job; returns false if already running or unknown. -/
def cancelQueuedScanQ (rid : String) (q : QueueState) : Bool × QueueState :=
  if q.pending.any (fun p => p.requestId == rid) then
    (true, { q with pending := q.pending.filter (fun p => p.requestId != rid) })
  else (false, q)

/-- Modelled from the spec: `getQueuePosition(requestId)` (§4.1) — 1-based
rank among pending jobs in the waiting order; 0 if not pending. -/
def getQueuePositionQ (before : QueuedScan → QueuedScan → Bool) (rid : String)
    (q : QueueState) : Nat :=
  match q.pending.find? (fun p => p.requestId == rid) with
  | none => 0
  | some p => (q.pending.filter (fun p2 => before p2 p)).length + 1

/-- Repeatedly complete the currently running job, letting the queue
promote waiting jobs one at a time. -/
def drainQ (before : QueuedScan → QueuedScan → Bool) :
    Nat → QueueState → QueueState
  | 0, q => q
  | n + 1, q =>
    match q.running with
    | [] => q
    | r :: _ => drainQ before n (completeScanQ before r q)

/-- The request payload used in the §8 priority scenario. -/
def c4Request : ScanRequest := { image := "img", tag := "latest", source := "registry" }

/-- A queue entry for the §8 priority scenario (arrival stamped on
enqueue). -/
def mkQS (rid : String) (pri : Int) : QueuedScan :=
  { requestId := rid, scanId := rid, imageId := "i", request := c4Request,
    priority := pri, enqueuedAt := 0 }

/-- Scenario start: concurrency limit 1, one job occupying the only
slot — the queue is at capacity. -/
def c4Start : QueueState :=
  { pending := [], running := ["occupied"], limit := 1, clock := 0, startedLog := [] }

/-- The queue after submitting, at capacity, four jobs with priorities
[0, -1, 0, -1] in order a0, b1, c0, d1. -/
def c4AfterEnqueue : QueueState :=
  enqueueQ (mkQS "d1" (-1))
    (enqueueQ (mkQS "c0" 0)
      (enqueueQ (mkQS "b1" (-1))
        (enqueueQ (mkQS "a0" 0) c4Start)))

/-- An inventory row as selected by `BulkScanService.findMatchingImages`
(`{id, name, tag, source, digest}`; the digest is not read by any modelled
operation and is omitted). -/
structure ImageRow where
  id : String
  name : String
  tag : String
  source : String
deriving DecidableEq, Repr

/-- One token of the regular expression produced by
`pattern.replace(/\*/g, '.*').replace(/\?/g, '.')`: `*` becomes `.*`
(match any sequence), `?` becomes `.` (match any one character), and a
literal `.` in the pattern — left unescaped by the translation — is
itself the any-one-character metacharacter; every other pattern character
matches itself.  Patterns are assumed free of the remaining regex
metacharacters, which the translation also leaves unescaped. -/
inductive RTok where
  | star
  | anyOne
  | lit (c : Char)
deriving DecidableEq, Repr

/-- Compile a glob pattern to the token list of its translated regular
expression. -/
def compileGlob : List Char → List RTok
  | [] => []
  | c :: cs =>
    (if c = '*' then RTok.star
     else if c = '?' then RTok.anyOne
     else if c = '.' then RTok.anyOne
     else RTok.lit c) :: compileGlob cs

/-- Anchored matching of the translated regular expression against a whole
string (the surrounding `^...$` of the source's `new RegExp`). -/
def matchToks : List RTok → List Char → Bool
  | [], s => s.isEmpty
  | RTok.lit c :: ts, d :: ds => c = d && matchToks ts ds
  | RTok.lit _ :: _, [] => false
  | RTok.anyOne :: ts, _ :: ds => matchToks ts ds
  | RTok.anyOne :: _, [] => false
  | RTok.star :: ts, s => (s.tails).any (fun s2 => matchToks ts s2)

/-- `regex.test(fullName)` for the anchored regex compiled from
`pattern`. -/
def globRegexTest (pattern fullName : String) : Bool :=
  matchToks (compileGlob pattern.data) fullName.data

/-- `BulkScanService.applyExcludePatterns`: with no patterns the image
list is returned unchanged; otherwise an image is kept exactly when its
fully qualified `name:tag` string matches none of the exclude patterns. -/
def applyExcludePatterns (images : List ImageRow)
    (excludePatterns : Option (List String)) : List ImageRow :=
  match excludePatterns with
  | none => images
  | some pats =>
    if pats.isEmpty then images
    else
      images.filter (fun image =>
        let fullName := image.name ++ ":" ++ image.tag
        ! pats.any (fun pattern => globRegexTest pattern fullName))

/-- The three candidate images of the exclude-pattern scenario. -/
def c7Images : List ImageRow :=
  [ { id := "1", name := "app", tag := "v1", source := "registry" },
    { id := "2", name := "app", tag := "v2", source := "registry" },
    { id := "3", name := "app", tag := "latest", source := "registry" } ]

/-- Association-list lookup keyed by strings (the embedding of the
process-wide maps and of rows keyed by id). -/
def alookup {α : Type} (k : String) : List (String × α) → Option α
  | [] => none
  | p :: ps => if p.1 = k then some p.2 else alookup k ps

/-- Map/table update: replace the entry at the key, or append a new
one. -/
def aset {α : Type} (k : String) (v : α) : List (String × α) → List (String × α)
  | [] => [(k, v)]
  | p :: ps => if p.1 = k then (k, v) :: ps else p :: aset k v ps

/-- Status of a bulk batch record (`bulkScanBatch.status`). -/
inductive BatchStatus where
  | RUNNING
  | COMPLETED
  | FAILED
deriving DecidableEq, Repr

/-- A `bulkScanBatch` row: the fields the orchestrator writes. -/
structure BatchRecord where
  name : Option String
  totalImages : Nat
  status : BatchStatus
  errorMessage : Option String := none
deriving DecidableEq, Repr

/-- A `scan` row as created by the orchestrator's per-image failure path
(the terminal FAILED placeholder). -/
structure ScanRow where
  imageId : String
  status : ScanStatus
  errorMessage : Option String := none
deriving DecidableEq, Repr

/-- A `bulkScanItem` row linking a scan into a batch. -/
structure BulkItem where
  batchId : String
  scanId : String
  imageId : String
  status : ScanStatus
deriving DecidableEq, Repr

/-- The persistence state touched by the bulk orchestrator: the batch
table, the scan table (placeholder rows), and the batch-item link
table.  The persistence collaborator itself is external (§6) and is
modelled as always succeeding. -/
structure BulkDb where
  batches : List (String × BatchRecord)
  scans : List (String × ScanRow)
  items : List BulkItem
deriving DecidableEq, Repr

/-- Update a batch row's status (and, when given, its error message), as
`prisma.bulkScanBatch.update` does on the row keyed by the batch id (an
update of a missing id, which the collaborator would reject, is a
no-op here). -/
def setBatchStatus (batchId : String) (status : BatchStatus) (err : Option String)
    (db : BulkDb) : BulkDb :=
  match alookup batchId db.batches with
  | none => db
  | some b =>
    let msg : Option String := match err with | some m => some m | none => b.errorMessage
    let b2 : BatchRecord := { b with status := status, errorMessage := msg }
    { db with batches := aset batchId b2 db.batches }

/-- The status of a batch row, if present. -/
def batchStatus? (batchId : String) (db : BulkDb) : Option BatchStatus :=
  (alookup batchId db.batches).map BatchRecord.status

/-- The scan request the orchestrator submits for an inventory row:
source LOCAL_DOCKER maps to a local scan, anything else to a registry
scan. -/
def bulkScanRequest (image : ImageRow) : ScanRequest :=
  { image := image.name, tag := image.tag,
    source := if image.source = "LOCAL_DOCKER" then "local" else "registry" }

/-- The id of the placeholder FAILED scan created for the i-th image when
its submission fails.  The source derives the id from the wall clock and
a random suffix; the model keys it by position, which preserves
uniqueness within a batch. -/
def failedScanId (i : Nat) : String :=
  "failed-" ++ toString i

/-- `true` exactly on a thrown submission outcome. -/
def isErr {ε α : Type} : Except ε α → Bool
  | .error _ => true
  | .ok _ => false

/-- The value returned by `BulkScanService.executeQueuedScans`. -/
structure QueuedScansResult where
  scanIds : List String
  successful : Nat
  failed : Nat
deriving DecidableEq, Repr

/-- `BulkScanService.executeQueuedScans` from position `i` on: process the
images sequentially; a successful submission (`startScan`, abstracted as
the outcome function `submit`, §6) links a RUNNING item into the batch;
a thrown submission creates a terminal FAILED placeholder scan row, links
a FAILED item into the batch, increments the failed counter, and
continues with the remaining images. -/
def executeQueuedScansFrom (submit : Nat → Except String String) (batchId : String) :
    Nat → List ImageRow → BulkDb → BulkDb × QueuedScansResult
  | _, [], db => (db, { scanIds := [], successful := 0, failed := 0 })
  | i, image :: rest, db =>
    match submit i with
    | .ok scanId =>
      let db2 := { db with
        items := db.items ++
          [{ batchId := batchId, scanId := scanId, imageId := image.id,
             status := ScanStatus.RUNNING }] }
      let out := executeQueuedScansFrom submit batchId (i + 1) rest db2
      (out.1, { scanIds := scanId :: out.2.scanIds,
                successful := out.2.successful + 1, failed := out.2.failed })
    | .error e =>
      let fid := failedScanId i
      let db2 := { db with
        scans := db.scans ++
          [(fid, { imageId := image.id, status := ScanStatus.FAILED,
                   errorMessage := some e })],
        items := db.items ++
          [{ batchId := batchId, scanId := fid, imageId := image.id,
             status := ScanStatus.FAILED }] }
      let out := executeQueuedScansFrom submit batchId (i + 1) rest db2
      (out.1, { scanIds := out.2.scanIds,
                successful := out.2.successful, failed := out.2.failed + 1 })

/-- `BulkScanService.queueScansInBackground`: run the submission loop and
then mark the batch COMPLETED.  The loop itself catches every per-item
throw, and the persistence collaborator is modelled as succeeding, so the
enclosing catch that would mark the batch FAILED is unreachable in the
model. -/
def queueScansInBackground (submit : Nat → Except String String) (batchId : String)
    (images : List ImageRow) (db : BulkDb) : BulkDb × QueuedScansResult :=
  let out := executeQueuedScansFrom submit batchId 0 images db
  (setBatchStatus batchId BatchStatus.COMPLETED none out.1, out.2)

/-- The value returned by `BulkScanService.executeBulkScan`. -/
structure BulkScanResult where
  batchId : String
  totalImages : Nat
  scanIds : List String
  skipped : Nat
deriving DecidableEq, Repr

/-- `BulkScanService.executeBulkScan` up to its synchronous return:
`matchingImages` is the output of `findMatchingImages` (inventory query
plus `applyExcludePatterns`); with no matches the call throws before any
batch row is created; otherwise the maxImages cap is applied, a RUNNING
batch row is created, the background submission loop is launched
fire-and-forget (modelled separately by `queueScansInBackground`), and
the call returns immediately with an empty scanIds list and skipped 0. -/
def executeBulkScan (batchId : String) (name : Option String)
    (matchingImages : List ImageRow) (maxImages : Option Nat)
    (db : BulkDb) : BulkDb × Except String BulkScanResult :=
  if matchingImages.length = 0 then
    (db, Except.error "No images found matching the specified patterns")
  else
    let limitedImages := match maxImages with
      | some m => matchingImages.take m
      | none => matchingImages
    let db2 := { db with
      batches := db.batches ++
        [(batchId, { name := name, totalImages := limitedImages.length,
                     status := BatchStatus.RUNNING })] }
    (db2, Except.ok { batchId := batchId, totalImages := limitedImages.length,
                      scanIds := [], skipped := 0 })

/-- The in-memory `ScanJob` entry of the process-wide job map
(`globalJobs`). -/
structure ScanJob where
  requestId : String
  scanId : String
  imageId : String
  status : ScanStatus
  progress : Nat
  error : Option String := none
deriving DecidableEq, Repr

/-- A persisted scan record as written through
`DatabaseAdapter.updateScanRecord`, keyed by scanId, restricted to the
fields the service writes (`finishedAt` timestamps are out of scope). -/
structure DbScan where
  status : ScanStatus
  errorMessage : Option String := none
deriving DecidableEq, Repr

/-- A `ScanProgressEvent` as emitted by `updateJobStatus` (the timestamp,
a wall-clock string, is out of scope). -/
structure ProgressEvent where
  requestId : String
  scanId : String
  status : ScanStatus
  progress : Nat
  step : Option String
  error : Option String
deriving DecidableEq, Repr

/-- A severity tally as computed by
`ScannerService.calculateVulnerabilityCounts`. -/
structure VulnCounts where
  critical : Nat
  high : Nat
  medium : Nat
  low : Nat
deriving DecidableEq, Repr

/-- One trivy result entry: its optional vulnerability list, each
vulnerability reduced to its optional `Severity` string. -/
structure TrivyResult where
  vulnerabilities : Option (List (Option String))
deriving DecidableEq, Repr

/-- A trivy report: its optional `Results` array. -/
structure TrivyReport where
  results : Option (List TrivyResult)
deriving DecidableEq, Repr

/-- One grype match entry: its optional `vulnerability.severity`
string. -/
structure GrypeMatch where
  severity : Option String
deriving DecidableEq, Repr

/-- A grype report: its optional `matches` array (named `matchEntries`
here because `matches` is reserved in Lean). -/
structure GrypeReport where
  matchEntries : Option (List GrypeMatch)
deriving DecidableEq, Repr

/-- The reports object returned by `loadScanResults`, restricted to the
two scanner shapes `calculateVulnerabilityCounts` reads (the metadata
attachment of scanner versions is not modelled). -/
structure Reports where
  trivy : Option TrivyReport
  grype : Option GrypeReport
deriving DecidableEq, Repr

/-- `toUpperCase` on a severity string, written as a structural map over
the characters so that it evaluates by kernel reduction. -/
def upperStr (s : String) : String :=
  String.mk (s.data.map Char.toUpper)

/-- Tally one severity string (uppercased, as in the source's switch). -/
def countSeverity (sev : String) (c : VulnCounts) : VulnCounts :=
  let s := upperStr sev
  if s = "CRITICAL" then { c with critical := c.critical + 1 }
  else if s = "HIGH" then { c with high := c.high + 1 }
  else if s = "MEDIUM" then { c with medium := c.medium + 1 }
  else if s = "LOW" then { c with low := c.low + 1 }
  else c

/-- `ScannerService.calculateVulnerabilityCounts`: fold the trivy results
(severity defaulting to UNKNOWN) and the grype matches (severity
defaulting to Unknown) into one tally. -/
def calculateVulnerabilityCounts (reports : Reports) : VulnCounts :=
  let c0 : VulnCounts := { critical := 0, high := 0, medium := 0, low := 0 }
  let c1 := match reports.trivy with
    | none => c0
    | some tr =>
      match tr.results with
      | none => c0
      | some results =>
        results.foldl (fun c r =>
          match r.vulnerabilities with
          | none => c
          | some vulns => vulns.foldl (fun c2 v => countSeverity (v.getD "UNKNOWN") c2) c) c0
  match reports.grype with
  | none => c1
  | some gr =>
    match gr.matchEntries with
    | none => c1
    | some ms => ms.foldl (fun c m => countSeverity (m.severity.getD "Unknown") c) c1

/-- The outcomes of the external collaborators for one scan execution
(§6): the dispatcher variant, `loadScanResults`, and the notification
service.  Each completes or throws with a message. -/
structure ExecEnv where
  dispatchResult : Except String Unit
  loadResult : Except String Reports
  notifyResult : Except String Unit
deriving Repr

/-- The whole `ScannerService` orchestration state: the process-wide job
map, the persisted scan records, the ids with uploaded results, the
progress tracker's outstanding simulated-progress timers, the queue, the
instrumentation log of `completeScan` invocations, the emitted progress
events, and the notification calls made. -/
structure ScannerState where
  jobs : List (String × ScanJob)
  db : List (String × DbScan)
  uploads : List String
  timers : List String
  queue : QueueState
  completeCalls : List String
  events : List ProgressEvent
  notifyCalls : List String
deriving Repr

/-- `DatabaseAdapter.updateScanRecord(scanId, fields)`: merge the given
status and optional error message into the record keyed by scanId
(upsert; the persistence collaborator is modelled as succeeding, §6). -/
def updateScanRecordDb (scanId : String) (status : ScanStatus) (err : Option String) :
    List (String × DbScan) → List (String × DbScan)
  | [] => [(scanId, { status := status, errorMessage := err })]
  | p :: ps =>
    if p.1 = scanId then
      (scanId, { status := status,
                 errorMessage := match err with
                   | some m => some m
                   | none => p.2.errorMessage }) :: ps
    else p :: updateScanRecordDb scanId status err ps

/-- `ScannerService.updateJobStatus` (source lines 215-237): if the job
exists, overwrite its status, update progress and error when given, and
emit a progress event for RUNNING/SUCCESS/FAILED/CANCELLED. -/
def updateJobStatus (rid : String) (status : ScanStatus) (progress : Option Nat)
    (error : Option String) (step : Option String) (st : ScannerState) : ScannerState :=
  match alookup rid st.jobs with
  | none => st
  | some job =>
    let job2 : ScanJob := { job with
      status := status,
      progress := progress.getD job.progress,
      error := match error with | some e => some e | none => job.error }
    let st2 := { st with jobs := aset rid job2 st.jobs }
    if status = ScanStatus.RUNNING ∨ status = ScanStatus.SUCCESS ∨
        status = ScanStatus.FAILED ∨ status = ScanStatus.CANCELLED then
      { st2 with events := st2.events ++
          [{ requestId := rid, scanId := job.scanId, status := status,
             progress := progress.getD job.progress, step := step, error := error }] }
    else st2

/-- The status of the in-memory job for a request, if any. -/
def jobStatus? (rid : String) (st : ScannerState) : Option ScanStatus :=
  (alookup rid st.jobs).map ScanJob.status

/-- The recorded error of the in-memory job for a request, if any. -/
def jobError? (rid : String) (st : ScannerState) : Option String :=
  (alookup rid st.jobs).bind ScanJob.error

/-- `scanQueue.completeScan(requestId)` as invoked by the service; every
invocation is logged so release calls can be counted per request. -/
def completeScanCall (rid : String) (st : ScannerState) : ScannerState :=
  { st with queue := completeScanQ runBefore rid st.queue,
            completeCalls := st.completeCalls ++ [rid] }

/-- `progressTracker.cleanup(requestId)`: cancel the request's
outstanding simulated-progress timers. -/
def cleanupTracker (rid : String) (st : ScannerState) : ScannerState :=
  { st with timers := st.timers.filter (fun r => r ≠ rid) }

/-- A `simulateDownloadProgress`/`simulateScanningProgress` call: an
outstanding timer is registered for the request. -/
def simulateTimers (rid : String) (st : ScannerState) : ScannerState :=
  { st with timers := st.timers ++ [rid] }

/-- `databaseAdapter.updateScanRecord` lifted to the service state. -/
def persistScanRecord (scanId : String) (status : ScanStatus) (err : Option String)
    (st : ScannerState) : ScannerState :=
  { st with db := updateScanRecordDb scanId status err st.db }

/-- `ScannerService.shouldSimulateDownload`. -/
def shouldSimulateDownload (req : ScanRequest) : Bool :=
  req.source ≠ "local" && req.source ≠ "tar"

/-- The side effects of `executeScan` (source lines 141-155) before the
dispatcher await: tar scans with a tar path and local scans dispatch
directly; registry scans first start the simulated download (when
applicable) and scanning progress timers. -/
def executeScanPre (rid : String) (req : ScanRequest) (st : ScannerState) : ScannerState :=
  if req.source = "tar" ∧ req.tarPath.isSome then st
  else if req.source = "local" then st
  else
    let st2 := if shouldSimulateDownload req then simulateTimers rid st else st
    simulateTimers rid st2

/-- The catch block of `executeScan` (source lines 158-171): clean up the
progress tracker, persist FAILED with the error message, and mark the job
FAILED (the block then rethrows the same error, which
`executeScanAfterDispatch` surfaces as the pair's second component). -/
def executeScanCatch (rid scanId : String) (e : String) (st : ScannerState) : ScannerState :=
  let st2 := cleanupTracker rid st
  let st3 := persistScanRecord scanId ScanStatus.FAILED (some e) st2
  updateJobStatus rid ScanStatus.FAILED none (some e) none st3

/-- The success tail of `finalizeScan` (source lines 201-204): set
SUCCESS at progress 100 and notify the queue that the scan is
complete. -/
def finalizeSuccessTail (rid : String) (st : ScannerState) : ScannerState :=
  let st2 := updateJobStatus rid ScanStatus.SUCCESS (some 100) none
    (some "Scan completed successfully") st
  completeScanCall rid st2

/-- `ScannerService.finalizeScan` (source lines 175-205) over the
collaborator outcomes: report processing progress, load the results
(may throw), upload them, compute the severity tally, notify when
critical or high counts are positive (the notification may throw), then
set SUCCESS and release the slot.  Returns the state together with the
thrown error, if any. -/
def finalizeScan (env : ExecEnv) (rid scanId : String) (req : ScanRequest)
    (st : ScannerState) : ScannerState × Option String :=
  let st1 := updateJobStatus rid ScanStatus.RUNNING (some 90) none
    (some "Processing scan results") st
  match env.loadResult with
  | .error e => (st1, some e)
  | .ok reports =>
    let st2 := { st1 with uploads := st1.uploads ++ [scanId] }
    let counts := calculateVulnerabilityCounts reports
    if counts.critical > 0 ∨ counts.high > 0 then
      let st3 := { st2 with notifyCalls := st2.notifyCalls ++ [req.image ++ ":" ++ req.tag] }
      match env.notifyResult with
      | .error e => (st3, some e)
      | .ok _ => (finalizeSuccessTail rid st3, none)
    else (finalizeSuccessTail rid st2, none)

/-- `ScannerService.executeScan` (source lines 139-172) from the
dispatcher's completion onward, factored at the await so interleavings at
the cooperative suspension point can be expressed: a dispatcher throw, or
a throw escaping `finalizeScan`, lands in the catch block; otherwise the
finalize result stands. -/
def executeScanAfterDispatch (env : ExecEnv) (rid scanId : String) (req : ScanRequest)
    (st : ScannerState) : ScannerState × Option String :=
  match env.dispatchResult with
  | .error e => (executeScanCatch rid scanId e st, some e)
  | .ok _ =>
    match finalizeScan env rid scanId req st with
    | (st2, some e) => (executeScanCatch rid scanId e st2, some e)
    | (st2, none) => (st2, none)

/-- The state reached inside `finalizeScan` after reporting processing
progress and uploading the results. -/
def uploadedState (rid scanId : String) (st : ScannerState) : ScannerState :=
  let st1 := updateJobStatus rid ScanStatus.RUNNING (some 90) none
    (some "Processing scan results") st
  { st1 with uploads := st1.uploads ++ [scanId] }

/-- The state reached inside `finalizeScan` once the notification attempt
has additionally been logged. -/
def notifyAttemptState (rid scanId : String) (req : ScanRequest) (st : ScannerState) :
    ScannerState :=
  let st2 := uploadedState rid scanId st
  { st2 with notifyCalls := st2.notifyCalls ++ [req.image ++ ":" ++ req.tag] }

/-- Lines 108-112 of the scan-started listener: mark the job RUNNING in
the global map (written directly, not via `updateJobStatus`, so no
progress event is emitted). -/
def listenerPre (rid : String) (st : ScannerState) : ScannerState :=
  match alookup rid st.jobs with
  | none => st
  | some job => { st with jobs := aset rid { job with status := ScanStatus.RUNNING } st.jobs }

/-- The `.catch` handler attached to `executeScan` in the scan-started
listener (source lines 120-125): mark the job FAILED with the error
message and notify the queue that the scan is complete. -/
def listenerCatch (rid : String) (e : String) (st : ScannerState) : ScannerState :=
  let st2 := updateJobStatus rid ScanStatus.FAILED none (some e) none st
  completeScanCall rid st2

/-- The scan-started listener's continuation once the dispatcher
resumes: the `executeScan` outcome, with any rethrown error absorbed by
the attached `.catch` handler — the single dispatch boundary. -/
def listenerTail (env : ExecEnv) (rid scanId : String) (req : ScanRequest)
    (st : ScannerState) : ScannerState :=
  match executeScanAfterDispatch env rid scanId req st with
  | (st2, none) => st2
  | (st2, some e) => listenerCatch rid e st2

/-- The scan-started listener (source lines 105-126) run to completion
with no operation interleaved at the dispatcher await. -/
def scanStartedListener (env : ExecEnv) (qs : QueuedScan) (st : ScannerState) : ScannerState :=
  listenerTail env qs.requestId qs.scanId qs.request
    (executeScanPre qs.requestId qs.request (listenerPre qs.requestId st))

/-- `ScannerService.cancelScan` (source lines 255-286): try the
pending-cancel path first; otherwise, a RUNNING job is cleaned up, marked
CANCELLED, persisted, and its slot released; anything else returns false
with the state unchanged. -/
def cancelScan (rid : String) (st : ScannerState) : Bool × ScannerState :=
  match cancelQueuedScanQ rid st.queue with
  | (true, q2) =>
    let st1 := { st with queue := q2 }
    match alookup rid st1.jobs with
    | some job =>
      let st2 := updateJobStatus rid ScanStatus.CANCELLED none none none st1
      (true, persistScanRecord job.scanId ScanStatus.CANCELLED none st2)
    | none => (true, st1)
  | (false, _) =>
    match alookup rid st.jobs with
    | some job =>
      if job.status = ScanStatus.RUNNING then
        let st1 := cleanupTracker rid st
        let st2 := updateJobStatus rid ScanStatus.CANCELLED none none none st1
        let st3 := persistScanRecord job.scanId ScanStatus.CANCELLED none st2
        (true, completeScanCall rid st3)
      else (false, st)
    | none => (false, st)

/-- The value returned by `ScannerService.startScan`. -/
structure StartScanResult where
  requestId : String
  scanId : String
  queued : Bool
  queuePosition : Option Nat
deriving DecidableEq, Repr

/-- `ScannerService.startScan` (source lines 55-95): create the persisted
record (the ids minted by the persistence collaborator are parameters),
register the in-memory PENDING job, enqueue, and report whether the scan
was queued and at which position. -/
def startScan (rid scanId imageId : String) (req : ScanRequest) (priority : Option Int)
    (st : ScannerState) : ScannerState × StartScanResult :=
  let st1 := persistScanRecord scanId ScanStatus.PENDING none st
  let job : ScanJob := { requestId := rid, scanId := scanId, imageId := imageId,
                         status := ScanStatus.PENDING, progress := 0 }
  let st2 := { st1 with jobs := aset rid job st1.jobs }
  let entry : QueuedScan := { requestId := rid, scanId := scanId, imageId := imageId,
                              request := req, priority := priority.getD 0, enqueuedAt := 0 }
  let st3 := { st2 with queue := enqueueQ entry st2.queue }
  let pos := getQueuePositionQ runBefore rid st3.queue
  let queued := pos > 0
  let st4 := if queued
    then persistScanRecord scanId ScanStatus.PENDING none st3
    else st3
  (st4, { requestId := rid, scanId := scanId, queued := queued,
          queuePosition := if queued then some pos else none })

/-- The empty service state with the given concurrency limit. -/
def emptyState (limit : Nat) : ScannerState :=
  { jobs := [], db := [], uploads := [], timers := [],
    queue := { pending := [], running := [], limit := limit, clock := 0, startedLog := [] },
    completeCalls := [], events := [], notifyCalls := [] }

/-- A sample registry scan request. -/
def sampleReq : ScanRequest := { image := "app", tag := "v1", source := "registry" }

/-- State after `startScan` admits job r1 into an empty limit-1 service:
r1 is PENDING in the map and occupies the only running slot. -/
def startedState : ScannerState :=
  (startScan "r1" "s1" "i1" sampleReq none (emptyState 1)).1

/-- The empty reports object (no vulnerabilities). -/
def emptyReports : Reports := { trivy := none, grype := none }

/-- A collaborator environment in which everything completes. -/
def okEnv : ExecEnv :=
  { dispatchResult := .ok (), loadResult := .ok emptyReports, notifyResult := .ok () }

/-- The state of the limit-1 service while job r1 is RUNNING and the
listener is suspended awaiting the dispatcher. -/
def runningState : ScannerState :=
  executeScanPre "r1" sampleReq (listenerPre "r1" startedState)

/-- The state at the §5 cancellation race's suspension point: the
listener has marked r1 RUNNING and is awaiting the dispatcher;
`cancelScan` has run to completion. -/
def cancelRaceMid : ScannerState :=
  (cancelScan "r1" runningState).2

/-- The final state of the cancellation race: after the cancellation, the
dispatcher's outstanding operation completes successfully and the
listener continuation processes it. -/
def cancelRaceFinal : ScannerState :=
  listenerTail okEnv "r1" "s1" sampleReq cancelRaceMid

/-- A collaborator environment whose dispatcher throws. -/
def dispatchFailEnv : ExecEnv :=
  { dispatchResult := .error "registry pull failed", loadResult := .ok emptyReports,
    notifyResult := .ok () }

/-- Reports with one critical trivy vulnerability (triggers the
completion notification). -/
def criticalReports : Reports :=
  { trivy := some { results := some [{ vulnerabilities := some [some "CRITICAL"] }] },
    grype := none }

/-- A collaborator environment in which the scan and result loading
complete but the notification collaborator throws. -/
def notifyFailEnv : ExecEnv :=
  { dispatchResult := .ok (), loadResult := .ok criticalReports,
    notifyResult := .error "notification channel unavailable" }

/-- The final state of a scan whose notification collaborator throws
during finalize. -/
def notifyFailFinal : ScannerState :=
  scanStartedListener notifyFailEnv
    { requestId := "r1", scanId := "s1", imageId := "i1", request := sampleReq,
      priority := 0, enqueuedAt := 0 } startedState

/-- A state holding a single already-SUCCESS job and an idle queue. -/
def c6State : ScannerState :=
  { jobs := [("r1", { requestId := "r1", scanId := "s1", imageId := "i1",
                      status := ScanStatus.SUCCESS, progress := 100 })],
    db := [], uploads := [], timers := [],
    queue := { pending := [], running := [], limit := 2, clock := 0, startedLog := [] },
    completeCalls := [], events := [], notifyCalls := [] }

/-- A sample inventory row. -/
def c10Image : ImageRow := { id := "1", name := "app", tag := "v1", source := "registry" }

/-- The empty bulk persistence state. -/
def emptyBulkDb : BulkDb := { batches := [], scans := [], items := [] }

/-- A submission-outcome function for the three-image batch scenario:
the second image's submission throws, the others succeed. -/
def c5Submit : Nat → Except String String :=
  fun i => if i = 1 then Except.error "submission refused" else Except.ok ("scan" ++ toString i)

/-- The three images of the batch scenario. -/
def c5Images : List ImageRow :=
  [ { id := "i0", name := "a", tag := "t0", source := "registry" },
    { id := "i1", name := "a", tag := "t1", source := "registry" },
    { id := "i2", name := "a", tag := "t2", source := "registry" } ]

/-- The bulk persistence state holding the scenario's RUNNING batch. -/
def c5Db : BulkDb :=
  { batches := [("b1", { name := none, totalImages := 3, status := BatchStatus.RUNNING })],
    scans := [], items := [] }

/-- Looking up a key just set yields the set value. -/
theorem alookup_aset_self {α : Type} (k : String) (v : α) (l : List (String × α)) :
    alookup k (aset k v l) = some v := by
  induction l with
  | nil => simp [aset, alookup]
  | cons p ps ih =>
    by_cases hp : p.1 = k
    · simp [aset, hp, alookup]
    · simp [aset, hp, alookup, ih]

/-- A record update with an explicit message writes that status and
message. -/
theorem updateScanRecordDb_self (scanId : String) (s : ScanStatus) (msg : String)
    (db : List (String × DbScan)) :
    alookup scanId (updateScanRecordDb scanId s (some msg) db) =
      some { status := s, errorMessage := some msg } := by
  induction db with
  | nil => simp [updateScanRecordDb, alookup]
  | cons p ps ih =>
    by_cases hp : p.1 = scanId
    · simp [updateScanRecordDb, hp, alookup]
    · simp [updateScanRecordDb, hp, alookup, ih]

/-- `updateJobStatus` rewrites the looked-up job exactly as the source
mutation does. -/
theorem updateJobStatus_self (rid : String) (s : ScanStatus) (p : Option Nat)
    (e : Option String) (stp : Option String) (st : ScannerState) (job : ScanJob)
    (h : alookup rid st.jobs = some job) :
    alookup rid (updateJobStatus rid s p e stp st).jobs =
      some { job with status := s, progress := p.getD job.progress,
                      error := match e with | some m => some m | none => job.error } := by
  unfold updateJobStatus
  rw [h]
  dsimp only
  split
  · simp [alookup_aset_self]
  · simp [alookup_aset_self]

/-- `updateJobStatus` never touches the release-call log. -/
theorem updateJobStatus_completeCalls (rid : String) (s : ScanStatus) (p : Option Nat)
    (e : Option String) (stp : Option String) (st : ScannerState) :
    (updateJobStatus rid s p e stp st).completeCalls = st.completeCalls := by
  unfold updateJobStatus
  cases alookup rid st.jobs
  · rfl
  · dsimp only
    split <;> rfl

/-- `updateJobStatus` never touches the persisted records. -/
theorem updateJobStatus_db (rid : String) (s : ScanStatus) (p : Option Nat)
    (e : Option String) (stp : Option String) (st : ScannerState) :
    (updateJobStatus rid s p e stp st).db = st.db := by
  unfold updateJobStatus
  cases alookup rid st.jobs
  · rfl
  · dsimp only
    split <;> rfl

/-- The catch block's effect on the job map, the persisted record, and
the release-call log. -/
theorem executeScanCatch_lookup (rid scanId e : String) (st : ScannerState) (job : ScanJob)
    (h : alookup rid st.jobs = some job) :
    alookup rid (executeScanCatch rid scanId e st).jobs =
      some { job with status := ScanStatus.FAILED, error := some e } ∧
    alookup scanId (executeScanCatch rid scanId e st).db =
      some { status := ScanStatus.FAILED, errorMessage := some e } ∧
    (executeScanCatch rid scanId e st).completeCalls = st.completeCalls := by
  unfold executeScanCatch
  have h2 : alookup rid (persistScanRecord scanId ScanStatus.FAILED (some e)
      (cleanupTracker rid st)).jobs = some job := h
  refine ⟨?_, ?_, ?_⟩
  · rw [updateJobStatus_self _ _ _ _ _ _ _ h2]
    rfl
  · rw [updateJobStatus_db]
    exact updateScanRecordDb_self scanId ScanStatus.FAILED e (cleanupTracker rid st).db
  · rw [updateJobStatus_completeCalls]
    rfl

/-- Any error surfacing at the dispatch boundary is absorbed by the
listener's catch handler: the job ends FAILED carrying the error, the
persisted record is FAILED with the message, and exactly one release
call is appended. -/
theorem catchPath_spec (rid scanId e : String) (st : ScannerState) (job : ScanJob)
    (h : alookup rid st.jobs = some job) :
    jobStatus? rid (listenerCatch rid e (executeScanCatch rid scanId e st)) =
      some ScanStatus.FAILED ∧
    jobError? rid (listenerCatch rid e (executeScanCatch rid scanId e st)) = some e ∧
    alookup scanId (listenerCatch rid e (executeScanCatch rid scanId e st)).db =
      some { status := ScanStatus.FAILED, errorMessage := some e } ∧
    (listenerCatch rid e (executeScanCatch rid scanId e st)).completeCalls =
      st.completeCalls ++ [rid] := by
  obtain ⟨hj, hdb, hcc⟩ := executeScanCatch_lookup rid scanId e st job h
  unfold listenerCatch
  refine ⟨?_, ?_, ?_, ?_⟩
  · simp [jobStatus?, completeScanCall, updateJobStatus_self _ _ _ _ _ _ _ hj]
  · simp [jobError?, completeScanCall, updateJobStatus_self _ _ _ _ _ _ _ hj]
  · simp [completeScanCall, updateJobStatus_db, hdb]
  · simp [completeScanCall, updateJobStatus_completeCalls, hcc]

/-- The listener tail reduces to the catch handler when the dispatch
boundary surfaces an error. -/
theorem listenerTail_catch_eq (env : ExecEnv) (rid scanId : String) (req : ScanRequest)
    (st st2 : ScannerState) (e : String)
    (hx : executeScanAfterDispatch env rid scanId req st = (st2, some e)) :
    listenerTail env rid scanId req st = listenerCatch rid e st2 := by
  unfold listenerTail
  rw [hx]

/-- The listener tail reduces to the finalize result when nothing is
thrown. -/
theorem listenerTail_ok_eq (env : ExecEnv) (rid scanId : String) (req : ScanRequest)
    (st st2 : ScannerState)
    (hx : executeScanAfterDispatch env rid scanId req st = (st2, none)) :
    listenerTail env rid scanId req st = st2 := by
  unfold listenerTail
  rw [hx]

/-- The dispatch boundary on a dispatcher throw. -/
theorem afterDispatch_dispatch_error (env : ExecEnv) (rid scanId : String)
    (req : ScanRequest) (st : ScannerState) (e : String)
    (hd : env.dispatchResult = Except.error e) :
    executeScanAfterDispatch env rid scanId req st =
      (executeScanCatch rid scanId e st, some e) := by
  unfold executeScanAfterDispatch
  rw [hd]

/-- `finalizeScan` when result loading throws. -/
theorem finalizeScan_load_error (env : ExecEnv) (rid scanId : String) (req : ScanRequest)
    (st : ScannerState) (e : String) (hl : env.loadResult = Except.error e) :
    finalizeScan env rid scanId req st =
      (updateJobStatus rid ScanStatus.RUNNING (some 90) none
        (some "Processing scan results") st, some e) := by
  unfold finalizeScan
  rw [hl]

/-- The dispatch boundary on a finalize-time (result loading) throw. -/
theorem afterDispatch_load_error (env : ExecEnv) (rid scanId : String) (req : ScanRequest)
    (st : ScannerState) (e : String)
    (hd : env.dispatchResult = Except.ok ()) (hl : env.loadResult = Except.error e) :
    executeScanAfterDispatch env rid scanId req st =
      (executeScanCatch rid scanId e
        (updateJobStatus rid ScanStatus.RUNNING (some 90) none
          (some "Processing scan results") st), some e) := by
  unfold executeScanAfterDispatch
  rw [hd, finalizeScan_load_error env rid scanId req st e hl]

/-- The catch block never touches the release-call log. -/
theorem executeScanCatch_completeCalls (rid scanId e : String) (st : ScannerState) :
    (executeScanCatch rid scanId e st).completeCalls = st.completeCalls := by
  unfold executeScanCatch
  rw [updateJobStatus_completeCalls]
  rfl

/-- The pre-dispatch side effects never touch the release-call log. -/
theorem executeScanPre_completeCalls (rid : String) (req : ScanRequest) (st : ScannerState) :
    (executeScanPre rid req st).completeCalls = st.completeCalls := by
  unfold executeScanPre
  split_ifs <;> simp [simulateTimers]

/-- Marking the job RUNNING never touches the release-call log. -/
theorem listenerPre_completeCalls (rid : String) (st : ScannerState) :
    (listenerPre rid st).completeCalls = st.completeCalls := by
  unfold listenerPre
  cases alookup rid st.jobs <;> rfl

/-- `finalizeScan` appends exactly one release call when it completes,
and none when it throws. -/
theorem finalizeScan_completeCalls (env : ExecEnv) (rid scanId : String)
    (req : ScanRequest) (st : ScannerState) :
    ((finalizeScan env rid scanId req st).2 = none ∧
      (finalizeScan env rid scanId req st).1.completeCalls = st.completeCalls ++ [rid]) ∨
    (∃ e, (finalizeScan env rid scanId req st).2 = some e ∧
      (finalizeScan env rid scanId req st).1.completeCalls = st.completeCalls) := by
  unfold finalizeScan
  cases hl : env.loadResult with
  | error e =>
    right
    exact ⟨e, rfl, by rw [updateJobStatus_completeCalls]⟩
  | ok reports =>
    dsimp only
    split
    · cases hn : env.notifyResult with
      | error e =>
        right
        exact ⟨e, rfl, by simp [updateJobStatus_completeCalls]⟩
      | ok u =>
        left
        exact ⟨rfl, by simp [finalizeSuccessTail, completeScanCall, updateJobStatus_completeCalls]⟩
    · left
      exact ⟨rfl, by simp [finalizeSuccessTail, completeScanCall, updateJobStatus_completeCalls]⟩

/-- Whatever the collaborator outcomes, the listener's continuation
appends exactly one release call for the request. -/
theorem listenerTail_completeCalls (env : ExecEnv) (rid scanId : String)
    (req : ScanRequest) (st : ScannerState) :
    (listenerTail env rid scanId req st).completeCalls = st.completeCalls ++ [rid] := by
  cases hd : env.dispatchResult with
  | error e =>
    rw [listenerTail_catch_eq env rid scanId req st _ e
      (afterDispatch_dispatch_error env rid scanId req st e hd)]
    simp [listenerCatch, completeScanCall, updateJobStatus_completeCalls,
      executeScanCatch_completeCalls]
  | ok u =>
    have hf := finalizeScan_completeCalls env rid scanId req st
    rcases hres : finalizeScan env rid scanId req st with ⟨st2, oe⟩
    rw [hres] at hf
    cases oe with
    | none =>
      have hx : executeScanAfterDispatch env rid scanId req st = (st2, none) := by
        unfold executeScanAfterDispatch
        rw [hd, hres]
      rw [listenerTail_ok_eq env rid scanId req st st2 hx]
      rcases hf with ⟨_, hcc⟩ | ⟨e2, habs, _⟩
      · exact hcc
      · exact absurd habs (by simp)
    | some e =>
      have hx : executeScanAfterDispatch env rid scanId req st =
          (executeScanCatch rid scanId e st2, some e) := by
        unfold executeScanAfterDispatch
        rw [hd, hres]
      rw [listenerTail_catch_eq env rid scanId req st _ e hx]
      rcases hf with ⟨habs, _⟩ | ⟨e2, _, hcc⟩
      · exact absurd habs (by simp)
      · have hcc2 : st2.completeCalls = st.completeCalls := hcc
        simp [listenerCatch, completeScanCall, updateJobStatus_completeCalls,
          executeScanCatch_completeCalls, hcc2]

/-- `finalizeScan` when the notification is triggered and the
notification collaborator throws. -/
theorem finalizeScan_notify_error (env : ExecEnv) (rid scanId : String) (req : ScanRequest)
    (st : ScannerState) (reports : Reports) (msg : String)
    (hl : env.loadResult = Except.ok reports)
    (hc : (calculateVulnerabilityCounts reports).critical > 0 ∨
          (calculateVulnerabilityCounts reports).high > 0)
    (hn : env.notifyResult = Except.error msg) :
    finalizeScan env rid scanId req st = (notifyAttemptState rid scanId req st, some msg) := by
  unfold finalizeScan notifyAttemptState uploadedState
  rw [hl]
  dsimp only
  rw [if_pos hc, hn]

/-- `finalizeScan` when the notification is triggered and completes. -/
theorem finalizeScan_notify_ok (env : ExecEnv) (rid scanId : String) (req : ScanRequest)
    (st : ScannerState) (reports : Reports)
    (hl : env.loadResult = Except.ok reports)
    (hc : (calculateVulnerabilityCounts reports).critical > 0 ∨
          (calculateVulnerabilityCounts reports).high > 0)
    (hn : env.notifyResult = Except.ok ()) :
    finalizeScan env rid scanId req st =
      (finalizeSuccessTail rid (notifyAttemptState rid scanId req st), none) := by
  unfold finalizeScan notifyAttemptState uploadedState
  rw [hl]
  dsimp only
  rw [if_pos hc, hn]

/-- `finalizeScan` when the notification is not triggered. -/
theorem finalizeScan_no_notify (env : ExecEnv) (rid scanId : String) (req : ScanRequest)
    (st : ScannerState) (reports : Reports)
    (hl : env.loadResult = Except.ok reports)
    (hc : ¬ ((calculateVulnerabilityCounts reports).critical > 0 ∨
          (calculateVulnerabilityCounts reports).high > 0)) :
    finalizeScan env rid scanId req st =
      (finalizeSuccessTail rid (uploadedState rid scanId st), none) := by
  unfold finalizeScan uploadedState
  rw [hl]
  dsimp only
  rw [if_neg hc]

/-- The success tail sets the job to SUCCESS. -/
theorem finalizeSuccessTail_status (rid : String) (st : ScannerState) (job : ScanJob)
    (h : alookup rid st.jobs = some job) :
    jobStatus? rid (finalizeSuccessTail rid st) = some ScanStatus.SUCCESS := by
  unfold finalizeSuccessTail
  simp [jobStatus?, completeScanCall, updateJobStatus_self _ _ _ _ _ _ _ h]

/-- Shifting a positional count over a range by one. -/
theorem countP_range_shift (p : Nat → Bool) (i n : Nat) :
    (List.range (n + 1)).countP (fun j => p (i + j)) =
      (if p i then 1 else 0) + (List.range n).countP (fun j => p (i + 1 + j)) := by
  rw [List.range_succ_eq_map, List.countP_cons, List.countP_map]
  have hfun : ((fun j => p (i + j)) ∘ Nat.succ) = fun j => p (i + 1 + j) := by
    funext j
    have hadd : i + Nat.succ j = i + 1 + j := by omega
    simp [Function.comp, hadd]
  rw [hfun]
  simp [Nat.add_comm]

/-- Updating a present batch row sets its status. -/
theorem batchStatus_setBatchStatus (batchId : String) (s : BatchStatus) (err : Option String)
    (db : BulkDb) (b : BatchRecord) (hb : alookup batchId db.batches = some b) :
    batchStatus? batchId (setBatchStatus batchId s err db) = some s := by
  unfold setBatchStatus batchStatus?
  rw [hb]
  simp [alookup_aset_self]

/-- Updating a batch row never touches the scan table. -/
theorem setBatchStatus_scans (batchId : String) (s : BatchStatus) (err : Option String)
    (db : BulkDb) : (setBatchStatus batchId s err db).scans = db.scans := by
  unfold setBatchStatus
  cases alookup batchId db.batches <;> rfl

/-- Updating a batch row never touches the item table. -/
theorem setBatchStatus_items (batchId : String) (s : BatchStatus) (err : Option String)
    (db : BulkDb) : (setBatchStatus batchId s err db).items = db.items := by
  unfold setBatchStatus
  cases alookup batchId db.batches <;> rfl

/-- The submission loop processed from position `i`: it never touches the
batch table, accounts for every image (successful + failed = length), its
failed counter counts exactly the throwing submissions, it only ever
appends to the scan and item tables, and every throwing submission has
its FAILED placeholder scan row and FAILED batch item present at the
end. -/
theorem executeQueuedScansFrom_spec (submit : Nat → Except String String)
    (batchId : String) :
    ∀ (images : List ImageRow) (i : Nat) (db : BulkDb),
      (executeQueuedScansFrom submit batchId i images db).1.batches = db.batches ∧
      (executeQueuedScansFrom submit batchId i images db).2.successful +
        (executeQueuedScansFrom submit batchId i images db).2.failed = images.length ∧
      (executeQueuedScansFrom submit batchId i images db).2.failed =
        (List.range images.length).countP (fun j => isErr (submit (i + j))) ∧
      (∀ x ∈ db.scans, x ∈ (executeQueuedScansFrom submit batchId i images db).1.scans) ∧
      (∀ x ∈ db.items, x ∈ (executeQueuedScansFrom submit batchId i images db).1.items) ∧
      (∀ (j : Nat) (hj : j < images.length) (e : String),
        submit (i + j) = Except.error e →
        (failedScanId (i + j),
          ({ imageId := (images.get ⟨j, hj⟩).id, status := ScanStatus.FAILED,
             errorMessage := some e } : ScanRow)) ∈
            (executeQueuedScansFrom submit batchId i images db).1.scans ∧
        ({ batchId := batchId, scanId := failedScanId (i + j),
           imageId := (images.get ⟨j, hj⟩).id, status := ScanStatus.FAILED } : BulkItem) ∈
          (executeQueuedScansFrom submit batchId i images db).1.items) := by
  intro images
  induction images with
  | nil =>
    intro i db
    refine ⟨rfl, rfl, by simp [executeQueuedScansFrom], fun x hx => hx, fun x hx => hx, ?_⟩
    intro j hj e _
    exact absurd hj (by simp)
  | cons image rest ih =>
    intro i db
    cases hs : submit i with
    | ok scanId =>
      simp only [executeQueuedScansFrom, hs]
      obtain ⟨hb, hcount, hfail, hscans, hitems, hfails⟩ := ih (i + 1)
        { db with items := db.items ++
            [{ batchId := batchId, scanId := scanId, imageId := image.id,
               status := ScanStatus.RUNNING }] }
      refine ⟨hb, ?_, ?_, ?_, ?_, ?_⟩
      · simp only [List.length_cons]
        omega
      · rw [List.length_cons, countP_range_shift (fun k => isErr (submit k)) i rest.length]
        have hzero : (if isErr (submit i) then 1 else 0) = 0 := by
          rw [hs]
          simp [isErr]
        rw [hzero, Nat.zero_add]
        exact hfail
      · intro x hx
        exact hscans x hx
      · intro x hx
        exact hitems x (by simp [hx])
      · intro j hj e he
        cases j with
        | zero =>
          rw [Nat.add_zero, hs] at he
          exact absurd he (by simp)
        | succ k =>
          have hk : k < rest.length := by
            simpa using Nat.lt_of_succ_lt_succ hj
          have hidx : i + (k + 1) = i + 1 + k := by omega
          rw [hidx] at he
          have := hfails k hk e he
          rw [hidx]
          simpa using this
    | error e0 =>
      simp only [executeQueuedScansFrom, hs]
      obtain ⟨hb, hcount, hfail, hscans, hitems, hfails⟩ := ih (i + 1)
        { db with
          scans := db.scans ++
            [(failedScanId i, { imageId := image.id, status := ScanStatus.FAILED,
                                errorMessage := some e0 })],
          items := db.items ++
            [{ batchId := batchId, scanId := failedScanId i, imageId := image.id,
               status := ScanStatus.FAILED }] }
      refine ⟨hb, ?_, ?_, ?_, ?_, ?_⟩
      · simp only [List.length_cons]
        omega
      · rw [List.length_cons, countP_range_shift (fun k => isErr (submit k)) i rest.length]
        have hone : (if isErr (submit i) then 1 else 0) = 1 := by
          rw [hs]
          simp [isErr]
        rw [hone]
        omega
      · intro x hx
        exact hscans x (by simp [hx])
      · intro x hx
        exact hitems x (by simp [hx])
      · intro j hj e he
        cases j with
        | zero =>
          rw [Nat.add_zero] at he ⊢
          rw [hs] at he
          have he0 : e = e0 := by
            injection he with h2
            exact h2.symm
          subst he0
          constructor
          · exact hscans _ (by simp)
          · exact hitems _ (by simp)
        | succ k =>
          have hk : k < rest.length := by
            simpa using Nat.lt_of_succ_lt_succ hj
          have hidx : i + (k + 1) = i + 1 + k := by omega
          rw [hidx] at he
          have := hfails k hk e he
          rw [hidx]
          simpa using this

/-- C7: exclude patterns compile to anchored regular expressions matched
against the fully qualified `name:tag` string, and every candidate
matching any exclude pattern is removed; in particular the candidates
app:v1, app:v2, app:latest with exclude pattern "app:latest" resolve to
app:v1, app:v2. -/
theorem c7_exclude_patterns :
    (∀ (images : List ImageRow) (pats : List String) (im : ImageRow),
        im ∈ applyExcludePatterns images (some pats) ↔
          im ∈ images ∧ ∀ p ∈ pats,
            globRegexTest p (im.name ++ ":" ++ im.tag) = false) ∧
    applyExcludePatterns c7Images (some ["app:latest"]) = c7Images.take 2 := by
  constructor
  · intro images pats im
    by_cases hp : pats.isEmpty
    · have : pats = [] := List.isEmpty_iff.mp hp
      subst this
      simp [applyExcludePatterns]
    · simp only [applyExcludePatterns, if_neg hp, List.mem_filter]
      constructor
      · rintro ⟨hmem, hkeep⟩
        refine ⟨hmem, ?_⟩
        intro p hpmem
        by_contra hne
        have htrue : globRegexTest p (im.name ++ ":" ++ im.tag) = true := by
          cases h : globRegexTest p (im.name ++ ":" ++ im.tag) with
          | true => rfl
          | false => exact absurd h hne
        have : pats.any
            (fun pattern => globRegexTest pattern (im.name ++ ":" ++ im.tag)) = true :=
          List.any_eq_true.mpr ⟨p, hpmem, htrue⟩
        simp [this] at hkeep
      · rintro ⟨hmem, hall⟩
        refine ⟨hmem, ?_⟩
        have : pats.any
            (fun pattern => globRegexTest pattern (im.name ++ ":" ++ im.tag)) = false := by
          rw [List.any_eq_false]
          intro p hpmem
          simp [hall p hpmem]
        simp [this]
  · decide

/-- C4 counterexample: with the ordering the claim itself states —
`(priority asc, enqueuedAt asc)`, lower priority values sorting first —
draining the scenario queue starts the two priority -1 jobs BEFORE the two
priority 0 jobs (started order b1, d1, a0, c0), so the claimed scenario
outcome "the two priority-0 jobs start before the two priority -1 jobs"
fails at this input. -/
theorem c4_spec_order_counterexample :
    (drainQ specBefore 5 c4AfterEnqueue).startedLog = ["b1", "d1", "a0", "c0"] ∧
    (drainQ specBefore 5 c4AfterEnqueue).startedLog.take 2 ≠ ["a0", "c0"] := by
  decide

/-- C4 (amended): with waiting jobs ordered by (priority desc, enqueuedAt
asc) — higher priority values start first, 0 = interactive before
-1 = bulk — jobs submitted at capacity with priorities [0, -1, 0, -1]
start the two priority-0 jobs before the two priority -1 jobs, and
equal-priority jobs preserve arrival order. -/
theorem c4_priority_scenario :
    (drainQ runBefore 5 c4AfterEnqueue).startedLog = ["a0", "c0", "b1", "d1"] := by
  decide

/-- C1 counterexample: in the §5 cancellation race — a RUNNING job is
cancelled while the dispatcher's operation is outstanding, and that
operation later completes — the late completion is reprocessed, so
`completeScan` is invoked twice for the job, not once. -/
theorem c1_counterexample :
    cancelRaceFinal.completeCalls = ["r1", "r1"] ∧
    cancelRaceFinal.completeCalls.count "r1" = 2 := by decide

/-- C2 counterexample: in the same race the job is CANCELLED — a terminal
status — when the cancellation completes, yet the late completion
afterwards moves it to SUCCESS: terminal states do not reject further
transitions. -/
theorem c2_counterexample :
    jobStatus? "r1" cancelRaceMid = some ScanStatus.CANCELLED ∧
    jobStatus? "r1" cancelRaceFinal = some ScanStatus.SUCCESS := by decide

/-- C8 counterexample: a scan whose results carry a critical finding
triggers the notification; when the notification collaborator throws,
the job ends FAILED with the notification error recorded — it does not
reach SUCCESS. -/
theorem c8_counterexample :
    notifyFailFinal.notifyCalls = ["app:v1"] ∧
    jobStatus? "r1" notifyFailFinal = some ScanStatus.FAILED ∧
    jobError? "r1" notifyFailFinal = some "notification channel unavailable" := by decide

/-- C6: `cancelScan` returns false and leaves the state unchanged when
the request is unknown or its job is already terminal (given the §3
invariant that such a request is not in the pending queue). -/
theorem c6_cancel_unknown_or_terminal (rid : String) (st : ScannerState)
    (hq : st.queue.pending.any (fun p => p.requestId == rid) = false)
    (hj : alookup rid st.jobs = none ∨
      ∃ job, alookup rid st.jobs = some job ∧ job.status.isTerminal = true) :
    cancelScan rid st = (false, st) := by
  unfold cancelScan cancelQueuedScanQ
  rw [hq]
  simp only [Bool.false_eq_true, if_false]
  rcases hj with h | ⟨job, hjob, hterm⟩
  · rw [h]
  · rw [hjob]
    have hne : job.status ≠ ScanStatus.RUNNING := by
      intro hs
      rw [hs] at hterm
      simp [ScanStatus.isTerminal] at hterm
    dsimp only
    rw [if_neg hne]

/-- Witness for `c6_cancel_unknown_or_terminal`: cancelling the
already-SUCCESS job r1 returns false and changes nothing. -/
theorem c6_witness : cancelScan "r1" c6State = (false, c6State) :=
  c6_cancel_unknown_or_terminal "r1" c6State rfl
    (Or.inr ⟨{ requestId := "r1", scanId := "s1", imageId := "i1",
               status := ScanStatus.SUCCESS, progress := 100, error := none },
             rfl, rfl⟩)

/-- C9: when pattern resolution yields no images, `executeBulkScan`
throws 'No images found matching the specified patterns' and the batch
table (indeed the whole persistence state) is unchanged. -/
theorem c9_empty_resolution (batchId : String) (name : Option String)
    (maxImages : Option Nat) (db : BulkDb) :
    executeBulkScan batchId name [] maxImages db =
      (db, Except.error "No images found matching the specified patterns") := rfl

/-- C10: every successful `executeBulkScan` call returns skipped = 0 and
an empty scanIds list, whatever the resolved image set. -/
theorem c10_return_shape (batchId : String) (name : Option String)
    (matchingImages : List ImageRow) (maxImages : Option Nat) (db : BulkDb)
    (r : BulkScanResult)
    (h : (executeBulkScan batchId name matchingImages maxImages db).2 = Except.ok r) :
    r.skipped = 0 ∧ r.scanIds = [] := by
  unfold executeBulkScan at h
  by_cases hlen : matchingImages.length = 0
  · rw [if_pos hlen] at h
    exact absurd h (by simp)
  · rw [if_neg hlen] at h
    injection h with h2
    subst h2
    exact ⟨rfl, rfl⟩

/-- Witness for `c10_return_shape` at a one-image call. -/
theorem c10_witness :
    ({ batchId := "b1", totalImages := 1, scanIds := [], skipped := 0 } : BulkScanResult).skipped = 0 ∧
    ({ batchId := "b1", totalImages := 1, scanIds := [], skipped := 0 } : BulkScanResult).scanIds = [] :=
  c10_return_shape "b1" none [c10Image] none emptyBulkDb _ rfl

/-- C3: whenever the Dispatcher throws during scan execution, or the
finalize step (result loading) throws after it, the error is handled at
the single dispatch boundary — the listener's continuation returns a
state, so nothing escapes uncaught — and the job transitions to FAILED
with the error recorded, the FAILED record with the message is
persisted, and the occupied slot is released by exactly one appended
`completeScan` invocation. -/
theorem c3_dispatch_boundary (env : ExecEnv) (rid scanId : String) (req : ScanRequest)
    (st : ScannerState) (job : ScanJob) (e : String)
    (hjob : alookup rid st.jobs = some job)
    (herr : env.dispatchResult = Except.error e ∨
            (env.dispatchResult = Except.ok () ∧ env.loadResult = Except.error e)) :
    jobStatus? rid (listenerTail env rid scanId req st) = some ScanStatus.FAILED ∧
    jobError? rid (listenerTail env rid scanId req st) = some e ∧
    alookup scanId (listenerTail env rid scanId req st).db =
      some { status := ScanStatus.FAILED, errorMessage := some e } ∧
    (listenerTail env rid scanId req st).completeCalls = st.completeCalls ++ [rid] := by
  rcases herr with hd | ⟨hd, hl⟩
  · rw [listenerTail_catch_eq env rid scanId req st _ e
      (afterDispatch_dispatch_error env rid scanId req st e hd)]
    exact catchPath_spec rid scanId e st job hjob
  · rw [listenerTail_catch_eq env rid scanId req st _ e
      (afterDispatch_load_error env rid scanId req st e hd hl)]
    have hjob2 := updateJobStatus_self rid ScanStatus.RUNNING (some 90) none
      (some "Processing scan results") st job hjob
    obtain ⟨h1, h2, h3, h4⟩ := catchPath_spec rid scanId e _ _ hjob2
    exact ⟨h1, h2, h3, by rw [h4, updateJobStatus_completeCalls]⟩

/-- Witness for `c3_dispatch_boundary`: a dispatcher throw on the running
job r1 ends it FAILED. -/
theorem c3_witness :
    jobStatus? "r1" (listenerTail dispatchFailEnv "r1" "s1" sampleReq runningState) =
      some ScanStatus.FAILED :=
  (c3_dispatch_boundary dispatchFailEnv "r1" "s1" sampleReq runningState
    { requestId := "r1", scanId := "s1", imageId := "i1",
      status := ScanStatus.RUNNING, progress := 0, error := none }
    "registry pull failed" rfl (Or.inl rfl)).1

/-- C2 (amended): `updateJobStatus` applies the requested transition
unconditionally whenever the job exists — terminal states do not reject
subsequent transitions, so a late completion can move a CANCELLED job
onward. -/
theorem c2_no_terminal_guard (rid : String) (s : ScanStatus) (p : Option Nat)
    (e : Option String) (stp : Option String) (st : ScannerState) (job : ScanJob)
    (h : alookup rid st.jobs = some job) :
    jobStatus? rid (updateJobStatus rid s p e stp st) = some s := by
  unfold jobStatus?
  rw [updateJobStatus_self _ _ _ _ _ _ _ h]
  rfl

/-- Witness for `c2_no_terminal_guard`: the already-SUCCESS job r1 is
moved back to RUNNING. -/
theorem c2_witness :
    jobStatus? "r1" (updateJobStatus "r1" ScanStatus.RUNNING none none none c6State) =
      some ScanStatus.RUNNING :=
  c2_no_terminal_guard "r1" ScanStatus.RUNNING none none none c6State
    { requestId := "r1", scanId := "s1", imageId := "i1",
      status := ScanStatus.SUCCESS, progress := 100, error := none } rfl

/-- C1 (amended): for a job that reaches RUNNING and then a single
terminal outcome, `completeScan` is invoked exactly once — the listener
appends exactly one release call whatever the collaborator outcomes
(covering SUCCESS and FAILED), and cancelling a RUNNING job appends
exactly one release call; but in the cancel/late-completion race the
late completion is reprocessed and the release is invoked a second
time. -/
theorem c1_release_exactly_once :
    (∀ (env : ExecEnv) (qs : QueuedScan) (st : ScannerState),
        (scanStartedListener env qs st).completeCalls = st.completeCalls ++ [qs.requestId]) ∧
    (∀ (rid : String) (st : ScannerState) (job : ScanJob),
        st.queue.pending.any (fun p => p.requestId == rid) = false →
        alookup rid st.jobs = some job →
        job.status = ScanStatus.RUNNING →
        ((cancelScan rid st).2).completeCalls = st.completeCalls ++ [rid]) ∧
    cancelRaceFinal.completeCalls.count "r1" = 2 := by
  refine ⟨?_, ?_, by decide⟩
  · intro env qs st
    unfold scanStartedListener
    rw [listenerTail_completeCalls, executeScanPre_completeCalls, listenerPre_completeCalls]
  · intro rid st job hq hjob hrun
    unfold cancelScan cancelQueuedScanQ
    rw [hq]
    simp only [Bool.false_eq_true, if_false]
    rw [hjob]
    dsimp only
    rw [if_pos hrun]
    simp [completeScanCall, persistScanRecord, updateJobStatus_completeCalls, cleanupTracker]

/-- Witness for `c1_release_exactly_once`: cancelling the RUNNING job r1
appends exactly one release call. -/
theorem c1_release_exactly_once_witness :
    ((cancelScan "r1" runningState).2).completeCalls = runningState.completeCalls ++ ["r1"] :=
  c1_release_exactly_once.2.1 "r1" runningState
    { requestId := "r1", scanId := "s1", imageId := "i1",
      status := ScanStatus.RUNNING, progress := 0, error := none }
    rfl rfl rfl

/-- C8 (amended): the notification call is awaited without a guard — a
throw from the notification collaborator is handled at the dispatch
boundary like any finalize-time error, so the job ends FAILED with the
error recorded and exactly one release call; the job reaches SUCCESS
when the notification completes (or is not triggered). -/
theorem c8_notification_failure :
    (∀ (env : ExecEnv) (rid scanId : String) (req : ScanRequest) (st : ScannerState)
        (job : ScanJob) (reports : Reports) (msg : String),
        alookup rid st.jobs = some job →
        env.dispatchResult = Except.ok () →
        env.loadResult = Except.ok reports →
        ((calculateVulnerabilityCounts reports).critical > 0 ∨
          (calculateVulnerabilityCounts reports).high > 0) →
        env.notifyResult = Except.error msg →
        jobStatus? rid (listenerTail env rid scanId req st) = some ScanStatus.FAILED ∧
        jobError? rid (listenerTail env rid scanId req st) = some msg ∧
        (listenerTail env rid scanId req st).completeCalls = st.completeCalls ++ [rid]) ∧
    (∀ (env : ExecEnv) (rid scanId : String) (req : ScanRequest) (st : ScannerState)
        (job : ScanJob) (reports : Reports),
        alookup rid st.jobs = some job →
        env.dispatchResult = Except.ok () →
        env.loadResult = Except.ok reports →
        env.notifyResult = Except.ok () →
        jobStatus? rid (listenerTail env rid scanId req st) = some ScanStatus.SUCCESS) := by
  constructor
  · intro env rid scanId req st job reports msg hjob hd hl hc hn
    have hfx : executeScanAfterDispatch env rid scanId req st =
        (executeScanCatch rid scanId msg (notifyAttemptState rid scanId req st), some msg) := by
      unfold executeScanAfterDispatch
      rw [hd, finalizeScan_notify_error env rid scanId req st reports msg hl hc hn]
    rw [listenerTail_catch_eq env rid scanId req st _ msg hfx]
    have hjob2 : alookup rid (notifyAttemptState rid scanId req st).jobs =
        some { job with status := ScanStatus.RUNNING,
                        progress := (some 90).getD job.progress,
                        error := match (none : Option String) with
                          | some m => some m
                          | none => job.error } :=
      updateJobStatus_self rid ScanStatus.RUNNING (some 90) none
        (some "Processing scan results") st job hjob
    obtain ⟨h1, h2, _, h4⟩ := catchPath_spec rid scanId msg _ _ hjob2
    refine ⟨h1, h2, ?_⟩
    rw [h4]
    have : (notifyAttemptState rid scanId req st).completeCalls = st.completeCalls := by
      unfold notifyAttemptState uploadedState
      dsimp only
      rw [updateJobStatus_completeCalls]
    rw [this]
  · intro env rid scanId req st job reports hjob hd hl hn
    by_cases hc : (calculateVulnerabilityCounts reports).critical > 0 ∨
        (calculateVulnerabilityCounts reports).high > 0
    · have hfx : executeScanAfterDispatch env rid scanId req st =
          (finalizeSuccessTail rid (notifyAttemptState rid scanId req st), none) := by
        unfold executeScanAfterDispatch
        rw [hd, finalizeScan_notify_ok env rid scanId req st reports hl hc hn]
      rw [listenerTail_ok_eq env rid scanId req st _ hfx]
      exact finalizeSuccessTail_status rid _ _
        (updateJobStatus_self rid ScanStatus.RUNNING (some 90) none
          (some "Processing scan results") st job hjob)
    · have hfx : executeScanAfterDispatch env rid scanId req st =
          (finalizeSuccessTail rid (uploadedState rid scanId st), none) := by
        unfold executeScanAfterDispatch
        rw [hd, finalizeScan_no_notify env rid scanId req st reports hl hc]
      rw [listenerTail_ok_eq env rid scanId req st _ hfx]
      exact finalizeSuccessTail_status rid _ _
        (updateJobStatus_self rid ScanStatus.RUNNING (some 90) none
          (some "Processing scan results") st job hjob)

/-- Witness for `c8_notification_failure`: with a critical finding and a
throwing notification collaborator, the running job r1 ends FAILED. -/
theorem c8_witness :
    jobStatus? "r1" (listenerTail notifyFailEnv "r1" "s1" sampleReq runningState) =
      some ScanStatus.FAILED :=
  (c8_notification_failure.1 notifyFailEnv "r1" "s1" sampleReq runningState
    { requestId := "r1", scanId := "s1", imageId := "i1",
      status := ScanStatus.RUNNING, progress := 0, error := none }
    criticalReports "notification channel unavailable"
    rfl rfl rfl (by decide) rfl).1

/-- C5: per-image failure isolation — for every failing submission the
orchestrator records a terminal FAILED placeholder scan row, links a
FAILED item into the batch, and counts it in the failed counter, while
every remaining image is still processed (successful + failed covers the
whole list); the batch status still becomes COMPLETED once the loop
finishes (the loop itself absorbs every per-item throw, so no exception
escapes it). -/
theorem c5_per_image_failure_isolation (submit : Nat → Except String String)
    (batchId : String) (images : List ImageRow) (db : BulkDb) (b : BatchRecord)
    (hb : alookup batchId db.batches = some b) :
    batchStatus? batchId (queueScansInBackground submit batchId images db).1 =
      some BatchStatus.COMPLETED ∧
    (queueScansInBackground submit batchId images db).2.successful +
      (queueScansInBackground submit batchId images db).2.failed = images.length ∧
    (queueScansInBackground submit batchId images db).2.failed =
      (List.range images.length).countP (fun j => isErr (submit j)) ∧
    (∀ (j : Nat) (hj : j < images.length) (e : String), submit j = Except.error e →
      (failedScanId j,
        ({ imageId := (images.get ⟨j, hj⟩).id, status := ScanStatus.FAILED,
           errorMessage := some e } : ScanRow)) ∈
          (queueScansInBackground submit batchId images db).1.scans ∧
      ({ batchId := batchId, scanId := failedScanId j,
         imageId := (images.get ⟨j, hj⟩).id, status := ScanStatus.FAILED } : BulkItem) ∈
        (queueScansInBackground submit batchId images db).1.items) := by
  obtain ⟨hbatches, hcount, hfail, _, _, hfails⟩ :=
    executeQueuedScansFrom_spec submit batchId images 0 db
  have hb2 : alookup batchId
      (executeQueuedScansFrom submit batchId 0 images db).1.batches = some b := by
    rw [hbatches]
    exact hb
  refine ⟨?_, ?_, ?_, ?_⟩
  · unfold queueScansInBackground
    exact batchStatus_setBatchStatus batchId BatchStatus.COMPLETED none _ b hb2
  · exact hcount
  · have : ∀ j, (0 : Nat) + j = j := fun j => Nat.zero_add j
    simpa [this] using hfail
  · intro j hj e he
    have he0 : submit (0 + j) = Except.error e := by
      rw [Nat.zero_add]
      exact he
    obtain ⟨hms, hmi⟩ := hfails j hj e he0
    rw [Nat.zero_add] at hms hmi
    have hsc : (queueScansInBackground submit batchId images db).1.scans =
        (executeQueuedScansFrom submit batchId 0 images db).1.scans := by
      unfold queueScansInBackground
      rw [setBatchStatus_scans]
    have hit : (queueScansInBackground submit batchId images db).1.items =
        (executeQueuedScansFrom submit batchId 0 images db).1.items := by
      unfold queueScansInBackground
      rw [setBatchStatus_items]
    rw [hsc, hit]
    exact ⟨hms, hmi⟩

/-- Witness for `c5_per_image_failure_isolation`: the three-image batch
with a failing second submission still ends COMPLETED. -/
theorem c5_witness :
    batchStatus? "b1" (queueScansInBackground c5Submit "b1" c5Images c5Db).1 =
      some BatchStatus.COMPLETED :=
  (c5_per_image_failure_isolation c5Submit "b1" c5Images c5Db
    { name := none, totalImages := 3, status := BatchStatus.RUNNING } rfl).1

end HarborGuard
